import Mathlib

/-!
Verification of the relstorage commit pipeline (object mover, commit/row
locker, query-variant selector, blob transfer) against its specification.

The SQL tables involved are modelled relationally:

* `temp_store` (the per-session staging area, primary key `zoid`) is a list
  of `TempRow` records;
* `current_object` (history-preserving) / `object_state` (history-free) — the
  table whose `tid` column holds the current committed transaction for each
  object — is a list of `(zoid, tid)` pairs with `zoid` the primary key.

SQL queries are embedded as pure functions on those lists; `ORDER BY` is
insertion sort on the relevant key, an inner `JOIN` is a flat-map with a
filter, and Python `set` / `sorted` become `Finset` / `Finset.sort`.
-/

/-- A row of the `temp_store` staging table: the staged object id and the
transaction id the session believes is the object's current one
(`prev_tid`, the expected predecessor).  The `md5` and `state` columns play
no role in conflict detection and are omitted here. -/
structure TempRow where
  zoid : Nat
  prev_tid : Nat
deriving DecidableEq, Repr

/-- Ordering of conflict records by their first component (the `zoid`
column), as demanded by `ORDER BY zoid`. -/
def zoidLE (a b : Nat × Nat × Nat) : Prop := a.1 ≤ b.1

instance : DecidableRel zoidLE := fun a b => Nat.decLe a.1 b.1

instance : IsTotal (Nat × Nat × Nat) zoidLE := ⟨fun a b => Nat.le_total a.1 b.1⟩

instance : IsTrans (Nat × Nat × Nat) zoidLE := ⟨fun _ _ _ h h' => Nat.le_trans h h'⟩

/-- The unordered part of `_detect_conflict_queries`:
`SELECT zoid, cur.tid, temp_store.prev_tid FROM temp_store JOIN cur USING
(zoid) WHERE temp_store.prev_tid != cur.tid`, where `cur` is
`current_object` (history-preserving) or `object_state` (history-free),
modelled as a list of `(zoid, tid)` pairs. -/
def joinConflicts (temp : List TempRow) (cur : List (Nat × Nat)) :
    List (Nat × Nat × Nat) :=
  ((temp.flatMap fun tr =>
      (cur.filter fun c => c.1 = tr.zoid).map fun c => (tr.zoid, c.2, tr.prev_tid))).filter
    fun r => r.2.2 ≠ r.2.1

/-- `AbstractObjectMover.detect_conflict`: execute the conflict-detection
query (the join above, `ORDER BY zoid`) and return all rows. -/
def detect_conflict (temp : List TempRow) (cur : List (Nat × Nat)) :
    List (Nat × Nat × Nat) :=
  List.insertionSort zoidLE (joinConflicts temp cur)

theorem mem_joinConflicts (temp : List TempRow) (cur : List (Nat × Nat))
    (z ct pt : Nat) :
    (z, ct, pt) ∈ joinConflicts temp cur ↔
      (∃ tr ∈ temp, tr.zoid = z ∧ tr.prev_tid = pt) ∧ (z, ct) ∈ cur ∧ pt ≠ ct := by
  simp only [joinConflicts, List.mem_filter, List.mem_flatMap, List.mem_map,
    decide_eq_true_eq, Prod.mk.injEq, ne_eq]
  constructor
  · rintro ⟨⟨tr, htr, c, ⟨hc, hcz⟩, hz, hct, hpt⟩, hne⟩
    subst hz hct hpt
    exact ⟨⟨tr, htr, rfl, rfl⟩, by simpa [← hcz] using hc, hne⟩
  · rintro ⟨⟨tr, htr, hz, hpt⟩, hc, hne⟩
    subst hz hpt
    exact ⟨⟨tr, htr, (tr.zoid, ct), ⟨hc, rfl⟩, rfl, rfl, rfl⟩, hne⟩

/-- Claim C1: `detect_conflict` returns exactly the records
`(zoid, currentTid, expectedPredecessorTid)` of staged objects whose
expected predecessor differs from the current committed tid for that object
(every mismatching staged object appears, no matching one does), the result
is ordered by ObjectID ascending, and the result is empty exactly when no
staged object mismatches the current table. -/
theorem detect_conflict_sound_complete_ordered
    (temp : List TempRow) (cur : List (Nat × Nat)) :
    (∀ z ct pt : Nat,
        (z, ct, pt) ∈ detect_conflict temp cur ↔
          (∃ tr ∈ temp, tr.zoid = z ∧ tr.prev_tid = pt) ∧ (z, ct) ∈ cur ∧ pt ≠ ct) ∧
    List.Sorted zoidLE (detect_conflict temp cur) ∧
    (detect_conflict temp cur = [] ↔
      ∀ tr ∈ temp, ∀ ct : Nat, (tr.zoid, ct) ∈ cur → tr.prev_tid = ct) := by
  refine ⟨?_, List.sorted_insertionSort zoidLE _, ?_⟩
  · intro z ct pt
    rw [detect_conflict, List.mem_insertionSort, mem_joinConflicts]
  · rw [detect_conflict, ← List.isEmpty_iff, List.isEmpty_iff_length_eq_zero,
      (List.perm_insertionSort zoidLE _).length_eq,
      ← List.isEmpty_iff_length_eq_zero, List.isEmpty_iff,
      List.eq_nil_iff_forall_not_mem]
    constructor
    · intro h tr htr ct hct
      by_contra hne
      exact h (tr.zoid, ct, tr.prev_tid)
        ((mem_joinConflicts ..).mpr ⟨⟨tr, htr, rfl, rfl⟩, hct, hne⟩)
    · rintro h ⟨z, ct, pt⟩ hmem
      obtain ⟨⟨tr, htr, hz, hpt⟩, hc, hne⟩ := (mem_joinConflicts ..).mp hmem
      exact hne (hpt ▸ h tr htr ct (hz ▸ hc))

/-- Modelled from the spec: the Row Batcher collaborator (`batch.py` is not
among these sources).  Its `selectFrom(columns, table, filters)` with a
row-lock suffix returns the rows of *table* matching the key filter,
taking the row locks as the rows are fetched, iterating the supplied key
list in order; per the spec the core "sorts this union by ObjectID
ascending, and takes row-level locks in that exact order". -/
def batcher_select_locked (table : List Nat) (keys : List Nat) : List Nat :=
  keys.filter fun z => z ∈ table

/-- The set built from `cursor.execute(_get_current_objects_query)` followed
by `oids_being_updated = set of returned rows`: the query is
`SELECT zoid FROM cur WHERE zoid IN (SELECT zoid FROM temp_store)` with
`cur` being `current_object` (history-preserving) or `object_state`
(history-free), both with primary key `zoid` and both modelled as the list
of their `zoid` column. -/
def oidsBeingUpdated (curTable tempZoids : List Nat) : Finset Nat :=
  (curTable.filter fun z => z ∈ tempZoids).toFinset

/-- `oids_to_lock = sorted(oids_being_updated | set(current_oids))` from
`AbstractLocker.lock_current_objects`. -/
def oidsToLock (curTable tempZoids currentOids : List Nat) : List Nat :=
  Finset.sort (· ≤ ·) (oidsBeingUpdated curTable tempZoids ∪ currentOids.toFinset)

/-- `AbstractLocker._lock_current_objects_query`: the shortcut used when the
candidate set is empty — the `_get_current_objects` select with
`ORDER BY ZOID` and the lock clause appended, executed directly. -/
def lockCurrentObjectsRangeQuery (curTable tempZoids : List Nat) : List Nat :=
  List.insertionSort (· ≤ ·) (curTable.filter fun z => z ∈ tempZoids)

/-- `AbstractLocker.lock_current_objects`: the sequence of rows locked (in
lock-acquisition order).  With a non-empty candidate set the general path
runs (explicit union, Python `sorted`, batched locking select); with an
empty candidate set the single ordered range query substitutes. -/
def lock_current_objects (curTable tempZoids currentOids : List Nat) : List Nat :=
  if currentOids = [] then
    lockCurrentObjectsRangeQuery curTable tempZoids
  else
    batcher_select_locked curTable (oidsToLock curTable tempZoids currentOids)

theorem mem_oidsToLock (curTable tempZoids currentOids : List Nat) (z : Nat) :
    z ∈ oidsToLock curTable tempZoids currentOids ↔
      (z ∈ curTable ∧ z ∈ tempZoids) ∨ z ∈ currentOids := by
  simp [oidsToLock, oidsBeingUpdated, Finset.mem_sort, List.mem_filter]

/-- Claim C2: with a non-empty candidate set, `lock_current_objects` locks
exactly the rows of the current table whose oid lies in the union of the
staged objects (those with a current row) and the caller-supplied
candidates, acquires those locks in ascending ObjectID order, and the
acquisition order is a function of the oid sets alone — independent of the
order in which objects were staged or supplied. -/
theorem lock_current_objects_union_sorted_deterministic
    (curTable tempZoids currentOids tempZoids' currentOids' : List Nat)
    (h : currentOids ≠ [])
    (ht : tempZoids.toFinset = tempZoids'.toFinset)
    (hc : currentOids.toFinset = currentOids'.toFinset) :
    (∀ z : Nat, z ∈ lock_current_objects curTable tempZoids currentOids ↔
        z ∈ curTable ∧ (z ∈ tempZoids ∨ z ∈ currentOids)) ∧
    List.Sorted (· ≤ ·) (lock_current_objects curTable tempZoids currentOids) ∧
    lock_current_objects curTable tempZoids currentOids
      = batcher_select_locked curTable (oidsToLock curTable tempZoids' currentOids') := by
  have hmem : ∀ x : Nat, x ∈ tempZoids ↔ x ∈ tempZoids' := by
    intro x
    rw [← List.mem_toFinset, ht, List.mem_toFinset]
  have hlock : lock_current_objects curTable tempZoids currentOids
      = batcher_select_locked curTable (oidsToLock curTable tempZoids currentOids) := by
    rw [lock_current_objects, if_neg h]
  refine ⟨?_, ?_, ?_⟩
  · intro z
    rw [hlock]
    simp only [batcher_select_locked, List.mem_filter, mem_oidsToLock,
      decide_eq_true_eq]
    tauto
  · rw [hlock]
    exact List.Pairwise.sublist (List.filter_sublist _)
      (Finset.sort_sorted (· ≤ ·) _)
  · rw [hlock]
    have hfin : oidsBeingUpdated curTable tempZoids ∪ currentOids.toFinset
        = oidsBeingUpdated curTable tempZoids' ∪ currentOids'.toFinset := by
      rw [← hc]
      have : (curTable.filter fun z => z ∈ tempZoids)
          = curTable.filter fun z => z ∈ tempZoids' :=
        List.filter_congr fun x _ => by simp [hmem x]
      rw [oidsBeingUpdated, oidsBeingUpdated, this]
    rw [oidsToLock, oidsToLock, hfin]

/-- Claim C8: with an empty candidate set `lock_current_objects` takes the
single ordered range-query shortcut, and that shortcut locks exactly the
same rows, in the same ascending-ObjectID order, as the general path
(union, sort, batched locking select) invoked with an empty candidate
set. -/
theorem lock_current_objects_empty_shortcut_equiv
    (curTable tempZoids : List Nat) (hnd : curTable.Nodup) :
    lock_current_objects curTable tempZoids []
      = lockCurrentObjectsRangeQuery curTable tempZoids ∧
    lockCurrentObjectsRangeQuery curTable tempZoids
      = batcher_select_locked curTable (oidsToLock curTable tempZoids []) := by
  refine ⟨rfl, ?_⟩
  have hfilter_nd : (curTable.filter fun z => z ∈ tempZoids).Nodup :=
    hnd.filter _
  have hfin : oidsBeingUpdated curTable tempZoids ∪ ([] : List Nat).toFinset
      = (curTable.filter fun z => z ∈ tempZoids).toFinset := by
    simp [oidsBeingUpdated]
  have hall : batcher_select_locked curTable (oidsToLock curTable tempZoids [])
      = oidsToLock curTable tempZoids [] := by
    rw [batcher_select_locked]
    refine List.filter_eq_self.mpr fun a ha => ?_
    rw [mem_oidsToLock] at ha
    simp only [List.not_mem_nil, or_false] at ha
    exact decide_eq_true ha.1
  rw [hall, oidsToLock, hfin, lockCurrentObjectsRangeQuery]
  refine List.eq_of_perm_of_sorted ?_
    (List.sorted_insertionSort _ _) (Finset.sort_sorted (· ≤ ·) _)
  refine List.perm_of_nodup_nodup_toFinset_eq
    ((List.perm_insertionSort _ _).nodup_iff.mpr hfilter_nd)
    (Finset.sort_nodup (· ≤ ·) _) ?_
  rw [Finset.sort_toFinset,
    List.toFinset_eq_of_perm _ _ (List.perm_insertionSort _ _)]

/-- An exception raised by the database driver while executing the lock
statement, as classified by the driver capability set
(`driver.illegal_operation_exceptions` and `driver.lock_exceptions` are
tuples of exception classes, and one class may belong to both).  The `id`
field stands for the identity of the exception object, so that
"propagates unchanged" is expressible. -/
structure DriverError where
  isIllegal : Bool
  isLock : Bool
  id : Nat
deriving DecidableEq, Repr

/-- Outcome of `cursor.execute(lock_stmt)` followed by `cursor.fetchall()`:
either the fetched rows (each row a sequence of column values) or a driver
exception. -/
inductive ExecOutcome where
  | rows (rs : List (List Int))
  | raised (e : DriverError)
deriving DecidableEq, Repr

/-- Errors escaping `hold_commit_lock`: relstorage's own
`UnableToAcquireCommitLockError`, or a driver exception propagating
unchanged. -/
inductive CommitLockError where
  | unableToAcquire (msg : String)
  | driver (e : DriverError)
deriving DecidableEq, Repr

/-- `AbstractLocker.hold_commit_lock` for a given request mode and backend
outcome.  The *nowait* flag selects the `NOWAIT` form of the lock statement
(or a zero row-lock timeout when `NOWAIT` is unsupported) but does not
change the handling logic modelled here.  The two `except` clauses hold
only driver exception classes, so the `UnableToAcquireCommitLockError`
raised for an empty result is not caught by them.  Python evaluates
`not rows or not rows[0]`: the second test asks whether the first *row*
(a sequence) is falsy, that is, empty. -/
def hold_commit_lock (nowait : Bool) (outcome : ExecOutcome) :
    Except CommitLockError Bool :=
  match outcome with
  | .rows rs =>
    match rs with
    | [] => .error (.unableToAcquire "No row returned from commit_row_lock")
    | r :: _ =>
      if r = [] then
        .error (.unableToAcquire "No row returned from commit_row_lock")
      else
        .ok true
  | .raised e =>
    if e.isIllegal then .error (.driver e)
    else if e.isLock then
      if nowait then .ok false
      else .error (.unableToAcquire "Acquiring a commit lock failed")
    else .error (.driver e)

/-- Claim C3: when the lock statement fails with a lock-contention error
(and the exception is not also in the illegal-operation category, which the
code checks first), `hold_commit_lock` with `noWait=true` returns `false`
instead of raising, and in blocking mode it raises
`UnableToAcquireCommitLock`; a successful acquisition returns `true` in
either mode. -/
theorem hold_commit_lock_contention_and_success
    (e : DriverError) (r : List Int) (rs : List (List Int)) (nowait : Bool)
    (hlock : e.isLock = true) (hill : e.isIllegal = false) (hr : r ≠ []) :
    hold_commit_lock true (.raised e) = .ok false ∧
    hold_commit_lock false (.raised e)
      = .error (.unableToAcquire "Acquiring a commit lock failed") ∧
    hold_commit_lock nowait (.rows (r :: rs)) = .ok true := by
  refine ⟨?_, ?_, ?_⟩ <;> simp [hold_commit_lock, hlock, hill, hr]

/-- Witness for claim C3 at a concrete contention error and a concrete
one-row result. -/
theorem hold_commit_lock_contention_and_success_witness :
    hold_commit_lock true (.raised ⟨false, true, 5⟩) = .ok false ∧
    hold_commit_lock false (.raised ⟨false, true, 5⟩)
      = .error (.unableToAcquire "Acquiring a commit lock failed") ∧
    hold_commit_lock false (.rows [[1]]) = .ok true :=
  hold_commit_lock_contention_and_success ⟨false, true, 5⟩ [1] [] false
    rfl rfl (by decide)

/-- Claim C4: an exception in the driver's illegal-operation category
propagates out of `hold_commit_lock` unchanged, in both request modes —
never converted to `UnableToAcquireCommitLock`, never converted to a
`false` return — even when the same exception also falls in the
lock-contention category. -/
theorem hold_commit_lock_illegal_propagates (nowait : Bool) (e : DriverError)
    (hill : e.isIllegal = true) :
    hold_commit_lock nowait (.raised e) = .error (.driver e) := by
  simp [hold_commit_lock, hill]

/-- Witness for claim C4: an exception that is in both the
illegal-operation and the lock-contention categories still propagates
unchanged under `noWait=true`. -/
theorem hold_commit_lock_illegal_propagates_witness :
    hold_commit_lock true (.raised ⟨true, true, 3⟩)
      = .error (.driver ⟨true, true, 3⟩) :=
  hold_commit_lock_illegal_propagates true ⟨true, true, 3⟩ rfl

/-- Counterexample to claim C10 as stated: the code tests `not rows[0]`,
that is, whether the first returned *row* is itself falsy (an empty
sequence), not whether the row's first *value* is falsy.  With one row
whose only value is `0` — a falsy first value — the blocking call succeeds
with `true` instead of raising `UnableToAcquireCommitLockError`. -/
theorem hold_commit_lock_falsy_first_value_succeeds :
    hold_commit_lock false (.rows [[0]]) = .ok true := rfl

/-- Claim C10 (amended): if the lock statement executes without a database
error but returns no rows, or a first row that is itself empty (falsy as a
sequence), `hold_commit_lock` raises `UnableToAcquireCommitLockError`
regardless of *nowait*; and a `false` return arises only with *nowait* set
and only from a backend exception in the lock-contention category (and not
in the illegal-operation category). -/
theorem hold_commit_lock_no_row_raises (nowait : Bool) (rs : List (List Int))
    (outcome : ExecOutcome) :
    hold_commit_lock nowait (.rows [])
      = .error (.unableToAcquire "No row returned from commit_row_lock") ∧
    hold_commit_lock nowait (.rows ([] :: rs))
      = .error (.unableToAcquire "No row returned from commit_row_lock") ∧
    (hold_commit_lock nowait outcome = .ok false →
      nowait = true ∧ ∃ e : DriverError, outcome = .raised e ∧
        e.isLock = true ∧ e.isIllegal = false) := by
  refine ⟨rfl, rfl, fun hfalse => ?_⟩
  cases outcome with
  | rows rs' =>
    exfalso
    match rs' with
    | [] => exact absurd hfalse (by simp [hold_commit_lock])
    | r :: rest =>
      by_cases hr : r = [] <;> simp [hold_commit_lock, hr] at hfalse
  | raised e =>
    by_cases hi : e.isIllegal
    · exact absurd hfalse (by simp [hold_commit_lock, hi])
    · by_cases hl : e.isLock
      · cases nowait with
        | false => exact absurd hfalse (by simp [hold_commit_lock, hi, hl])
        | true => exact ⟨rfl, e, rfl, hl, by simpa using hi⟩
      · exact absurd hfalse (by simp [hold_commit_lock, hi, hl])

/-- Witness for the amended claim C10 at concrete inputs. -/
theorem hold_commit_lock_no_row_raises_witness :
    hold_commit_lock true (.rows [])
      = .error (.unableToAcquire "No row returned from commit_row_lock") ∧
    hold_commit_lock true (.rows ([] :: [[2]]))
      = .error (.unableToAcquire "No row returned from commit_row_lock") ∧
    (hold_commit_lock true (.raised ⟨false, true, 7⟩) = .ok false →
      true = true ∧ ∃ e : DriverError, ExecOutcome.raised ⟨false, true, 7⟩ = .raised e ∧
        e.isLock = true ∧ e.isIllegal = false) :=
  hold_commit_lock_no_row_raises true [[2]] (.raised ⟨false, true, 7⟩)

/-- Witness for claim C2: the same two staged-object/candidate sets supplied
in two different orders. -/
theorem lock_current_objects_union_sorted_deterministic_witness :
    (∀ z : Nat, z ∈ lock_current_objects [1, 2, 5] [5, 1] [2, 9] ↔
        z ∈ [1, 2, 5] ∧ (z ∈ [5, 1] ∨ z ∈ [2, 9])) ∧
    List.Sorted (· ≤ ·) (lock_current_objects [1, 2, 5] [5, 1] [2, 9]) ∧
    lock_current_objects [1, 2, 5] [5, 1] [2, 9]
      = batcher_select_locked [1, 2, 5] (oidsToLock [1, 2, 5] [1, 5] [9, 2]) :=
  lock_current_objects_union_sorted_deterministic [1, 2, 5] [5, 1] [2, 9]
    [1, 5] [9, 2] (by decide) (by decide) (by decide)

/-- Witness for claim C8 at a concrete current table and staging set. -/
theorem lock_current_objects_empty_shortcut_equiv_witness :
    lock_current_objects [3, 1, 2] [2, 3, 7] []
      = lockCurrentObjectsRangeQuery [3, 1, 2] [2, 3, 7] ∧
    lockCurrentObjectsRangeQuery [3, 1, 2] [2, 3, 7]
      = batcher_select_locked [3, 1, 2] (oidsToLock [3, 1, 2] [2, 3, 7] []) :=
  lock_current_objects_empty_shortcut_equiv [3, 1, 2] [2, 3, 7] (by decide)

/-- A row of the permanent `object_state` table in history-preserving mode:
object id, committing transaction, and the predecessor transaction recorded
at copy time (`0` for an object created in that transaction). -/
structure ObjRow where
  zoid : Nat
  tid : Nat
  prev_tid : Nat
deriving DecidableEq, Repr

/-- Database state touched by `update_current`: the permanent
`object_state` rows and the `current_object` pointer table, the latter as
`(zoid, tid)` pairs. -/
structure HPDb where
  object_state : List ObjRow
  current_object : List (Nat × Nat)
deriving DecidableEq, Repr

/-- Statements `AbstractObjectMover.update_current` may execute. -/
inductive UpdateCurrentStmt where
  | insertCurrent
  | updateCurrent
deriving DecidableEq, Repr

/-- `_update_current_insert_query`:
`INSERT INTO current_object (zoid, tid) SELECT zoid, tid FROM object_state
WHERE tid = t AND prev_tid = 0`. -/
def execUpdateCurrentInsert (t : Nat) (db : HPDb) : HPDb :=
  { db with current_object := db.current_object ++
      ((db.object_state.filter fun r => r.tid = t ∧ r.prev_tid = 0).map
        fun r => (r.zoid, r.tid)) }

/-- Zoids selected by the subquery of `_update_current_update_query`:
objects modified (not created) in transaction *t*. -/
def modifiedZoids (t : Nat) (db : HPDb) : List Nat :=
  (db.object_state.filter fun r => r.tid = t ∧ r.prev_tid ≠ 0).map fun r => r.zoid

/-- `_update_current_update_query`: `UPDATE current_object SET tid = t
WHERE zoid IN (SELECT zoid FROM object_state WHERE tid = t AND
prev_tid != 0 ORDER BY zoid)`. -/
def execUpdateCurrentUpdate (t : Nat) (db : HPDb) : HPDb :=
  { db with current_object :=
      (db.current_object.map
        fun p => if p.1 ∈ modifiedZoids t db then (p.1, t) else p) }

/-- `AbstractObjectMover.update_current` under the `noop_when_history_free`
decorator: in history-free mode the method body is swapped for a no-op
returning `None`; in history-preserving mode the insert statement runs and
then — the generic `_update_current_update_query` being non-null — the
update statement.  The result is the final state together with the list of
statements executed. -/
def update_current (keep_history : Bool) (t : Nat) (db : HPDb) :
    HPDb × List UpdateCurrentStmt :=
  if keep_history then
    (execUpdateCurrentUpdate t (execUpdateCurrentInsert t db),
      [.insertCurrent, .updateCurrent])
  else
    (db, [])

/-- Claim C5: in history-free mode `update_current` succeeds while
executing no statement and leaving the database unchanged; in
history-preserving mode it inserts a `current_object` pointer `(zoid, t)`
for every object created at *t* (`prev_tid = 0`) and points every existing
`current_object` row of an object modified at *t* (`prev_tid != 0`) at
*t*. -/
theorem update_current_hf_noop_hp_republishes (t : Nat) (db : HPDb) :
    update_current false t db = (db, []) ∧
    (∀ r ∈ db.object_state, r.tid = t → r.prev_tid = 0 →
      (r.zoid, t) ∈ (update_current true t db).1.current_object) ∧
    (∀ p ∈ db.current_object,
      (∃ r ∈ db.object_state, r.zoid = p.1 ∧ r.tid = t ∧ r.prev_tid ≠ 0) →
      (p.1, t) ∈ (update_current true t db).1.current_object) := by
  refine ⟨rfl, ?_, ?_⟩
  · intro r hr ht hp
    have hmem : (r.zoid, t) ∈ (execUpdateCurrentInsert t db).current_object := by
      simp only [execUpdateCurrentInsert, List.mem_append, List.mem_map,
        List.mem_filter, decide_eq_true_eq]
      exact Or.inr ⟨r, ⟨hr, by simp [ht, hp]⟩, by simp [ht]⟩
    simp only [update_current, if_pos, execUpdateCurrentUpdate]
    refine List.mem_map.mpr ⟨(r.zoid, t), hmem, ?_⟩
    by_cases hmod : r.zoid ∈ modifiedZoids t (execUpdateCurrentInsert t db) <;>
      simp [hmod]
  · intro p hp ⟨r, hr, hz, ht, hpt⟩
    have hmem : p ∈ (execUpdateCurrentInsert t db).current_object := by
      simp only [execUpdateCurrentInsert, List.mem_append]
      exact Or.inl hp
    have hmod : p.1 ∈ modifiedZoids t (execUpdateCurrentInsert t db) := by
      simp only [modifiedZoids, execUpdateCurrentInsert, List.mem_map,
        List.mem_filter, decide_eq_true_eq]
      exact ⟨r, ⟨hr, by simp [ht, hpt]⟩, hz⟩
    simp only [update_current, if_pos, execUpdateCurrentUpdate]
    exact List.mem_map.mpr ⟨p, hmem, by simp [hmod]⟩

/-- Witness for claim C1 at a concrete staging area and current table:
object 9 staged with predecessor 5 while the current tid of 9 is 3. -/
theorem detect_conflict_sound_complete_ordered_witness :
    (∀ z ct pt : Nat,
        (z, ct, pt) ∈ detect_conflict [⟨9, 5⟩] [(9, 3)] ↔
          (∃ tr ∈ [(⟨9, 5⟩ : TempRow)], tr.zoid = z ∧ tr.prev_tid = pt) ∧
            (z, ct) ∈ [(9, 3)] ∧ pt ≠ ct) ∧
    List.Sorted zoidLE (detect_conflict [⟨9, 5⟩] [(9, 3)]) ∧
    (detect_conflict [⟨9, 5⟩] [(9, 3)] = [] ↔
      ∀ tr ∈ [(⟨9, 5⟩ : TempRow)], ∀ ct : Nat,
        (tr.zoid, ct) ∈ [(9, 3)] → tr.prev_tid = ct) :=
  detect_conflict_sound_complete_ordered [⟨9, 5⟩] [(9, 3)]

/-- Witness for claim C5 at a concrete transaction and database: object 7
created at tid 2, object 4 modified at tid 2. -/
theorem update_current_hf_noop_hp_republishes_witness :
    update_current false 2 ⟨[⟨7, 2, 0⟩, ⟨4, 2, 1⟩], [(4, 1)]⟩
      = (⟨[⟨7, 2, 0⟩, ⟨4, 2, 1⟩], [(4, 1)]⟩, []) ∧
    (∀ r ∈ [(⟨7, 2, 0⟩ : ObjRow), ⟨4, 2, 1⟩], r.tid = 2 → r.prev_tid = 0 →
      (r.zoid, 2) ∈ (update_current true 2
        ⟨[⟨7, 2, 0⟩, ⟨4, 2, 1⟩], [(4, 1)]⟩).1.current_object) ∧
    (∀ p ∈ [((4 : Nat), (1 : Nat))],
      (∃ r ∈ [(⟨7, 2, 0⟩ : ObjRow), ⟨4, 2, 1⟩],
          r.zoid = p.1 ∧ r.tid = 2 ∧ r.prev_tid ≠ 0) →
      (p.1, 2) ∈ (update_current true 2
        ⟨[⟨7, 2, 0⟩, ⟨4, 2, 1⟩], [(4, 1)]⟩).1.current_object) :=
  update_current_hf_noop_hp_republishes 2 ⟨[⟨7, 2, 0⟩, ⟨4, 2, 1⟩], [(4, 1)]⟩

/-- A row written to the permanent `object_state` table by
`_generic_restore`, with the payload as an optional byte string (`none` is
SQL `NULL`). -/
structure RestoreRow where
  zoid : Nat
  tid : Nat
  state_size : Nat
  state : Option (List Nat)
deriving DecidableEq, Repr

/-- Operations `_generic_restore` can hand to the row batcher.  The delete
carries the optional `tid` filter (present in history-preserving mode,
absent in history-free mode). -/
inductive BatchOp where
  | deleteObjectState (zoid : Nat) (tid : Option Nat)
  | insertObjectState (row : RestoreRow)
deriving DecidableEq, Repr

/-- Python truthiness of the optional payload (`elif data:`): false for
`None` and for an empty byte string. -/
def dataTruthy : Option (List Nat) → Bool
  | none => false
  | some d => !d.isEmpty

/-- `AbstractObjectMover._generic_restore`: the sequence of batcher
operations issued for one `(oid, tid, data)`.  The *upsert* flag is true
when the caller passes a non-empty conflict suffix (or a command other
than plain `INSERT`), in which case the preliminary delete is skipped.
With `data is None` the size is `0` and the encoded state is `NULL`; in
history-preserving mode the row is always inserted (the prev_tid/md5
columns are irrelevant here and omitted), while in history-free mode a
falsy payload leads to a bare delete of the permanent row. -/
def generic_restore (keep_history : Bool) (upsert : Bool) (oid tid : Nat)
    (data : Option (List Nat)) : List BatchOp :=
  let size := match data with | some d => d.length | none => 0
  if keep_history then
    (if upsert then [] else [BatchOp.deleteObjectState oid (some tid)]) ++
      [BatchOp.insertObjectState ⟨oid, tid, size, data⟩]
  else if dataTruthy data then
    (if upsert then [] else [BatchOp.deleteObjectState oid none]) ++
      [BatchOp.insertObjectState ⟨oid, tid, size, data⟩]
  else
    [BatchOp.deleteObjectState oid none]

/-- Claim C6: restoring a `None` payload in history-preserving mode still
writes a tombstone row (state `NULL`, size `0`); in history-free mode a
null or empty payload deletes the permanent row outright and writes no
row; a non-empty payload is written in both modes. -/
theorem generic_restore_tombstone_vs_delete
    (oid tid : Nat) (d : List Nat) (upsert : Bool) (hd : d ≠ []) :
    BatchOp.insertObjectState ⟨oid, tid, 0, none⟩
      ∈ generic_restore true upsert oid tid none ∧
    generic_restore false upsert oid tid none
      = [BatchOp.deleteObjectState oid none] ∧
    generic_restore false upsert oid tid (some [])
      = [BatchOp.deleteObjectState oid none] ∧
    (∀ op ∈ generic_restore false upsert oid tid none,
      ∀ row : RestoreRow, op ≠ BatchOp.insertObjectState row) ∧
    BatchOp.insertObjectState ⟨oid, tid, d.length, some d⟩
      ∈ generic_restore true upsert oid tid (some d) ∧
    BatchOp.insertObjectState ⟨oid, tid, d.length, some d⟩
      ∈ generic_restore false upsert oid tid (some d) := by
  refine ⟨?_, ?_, ?_, ?_, ?_, ?_⟩ <;>
    cases upsert <;> simp [generic_restore, dataTruthy, hd]

/-- Witness for claim C6 with payload `[65]` and the plain-insert path. -/
theorem generic_restore_tombstone_vs_delete_witness :
    BatchOp.insertObjectState ⟨7, 3, 0, none⟩
      ∈ generic_restore true false 7 3 none ∧
    generic_restore false false 7 3 none
      = [BatchOp.deleteObjectState 7 none] ∧
    generic_restore false false 7 3 (some [])
      = [BatchOp.deleteObjectState 7 none] ∧
    (∀ op ∈ generic_restore false false 7 3 none,
      ∀ row : RestoreRow, op ≠ BatchOp.insertObjectState row) ∧
    BatchOp.insertObjectState ⟨7, 3, [65].length, some [65]⟩
      ∈ generic_restore true false 7 3 (some [65]) ∧
    BatchOp.insertObjectState ⟨7, 3, [65].length, some [65]⟩
      ∈ generic_restore false false 7 3 (some [65]) :=
  generic_restore_tombstone_vs_delete 7 3 [65] false (by decide)

/-- A member of a `(history-preserving, history-free)` variant pair as fed
to `query_property`: either a query or an exception marker (usually
`ZODB.POSException.Unsupported`) meaning the operation is invalid in that
mode. -/
inductive QueryVariant where
  | q (s : String)
  | unsupported (msg : String)
deriving DecidableEq, Repr

/-- `query_property(base_name)`'s selector: pick the first member of the
`_queries` pair when `keep_history` is set and the second otherwise; if
the chosen member is an exception instance or class, raise it instead of
returning; otherwise append the extension and return the query.  (The
`formatted` branch, which interpolates `runner.script_vars`, is not
modelled; the surrounding `Lazy` wrapper only caches this pure function's
value per instance.) -/
def query_property (keep_history : Bool) (queries : QueryVariant × QueryVariant)
    (extension : String) : Except String String :=
  match (if keep_history then queries.1 else queries.2) with
  | .unsupported msg => .error msg
  | .q s => .ok (s ++ extension)

/-- `PostgreSQLObjectMover._move_from_temp_hf_insert_raw_queries`: the
history-preserving member is an `Unsupported` marker and the history-free
member is the raw upsert statement (abbreviated to its leading keywords
here). -/
def move_from_temp_hf_insert_raw_queries : QueryVariant × QueryVariant :=
  (.unsupported "States accumulate in history-preserving mode",
   .q "INSERT INTO object_state ... ON CONFLICT (zoid) DO UPDATE ...")

/-- Claim C7: if the variant selected by the mode flag is marked
unsupported, evaluating the selector raises instead of returning a value;
a supported variant is returned as the member of the pair picked purely by
the flag (history-preserving the first member, history-free the second) —
instantiated on the repository's `_move_from_temp_hf_insert_raw_queries`
pair, whose history-preserving member raises. -/
theorem query_property_selects_or_raises
    (kh : Bool) (q1 q2 : QueryVariant) (ext s msg : String) :
    ((if kh then q1 else q2) = .unsupported msg →
      query_property kh (q1, q2) ext = .error msg) ∧
    ((if kh then q1 else q2) = .q s →
      query_property kh (q1, q2) ext = .ok (s ++ ext)) ∧
    query_property true move_from_temp_hf_insert_raw_queries ""
      = .error "States accumulate in history-preserving mode" ∧
    query_property false move_from_temp_hf_insert_raw_queries ""
      = .ok "INSERT INTO object_state ... ON CONFLICT (zoid) DO UPDATE ..." := by
  refine ⟨fun h => ?_, fun h => ?_, rfl, rfl⟩ <;> simp [query_property, h]

/-- Witness for claim C7 with a concrete pair holding an unsupported
history-preserving member. -/
theorem query_property_selects_or_raises_witness :
    ((if true then QueryVariant.unsupported "no" else QueryVariant.q "sel")
        = QueryVariant.unsupported "no" →
      query_property true (QueryVariant.unsupported "no", QueryVariant.q "sel") ""
        = .error "no") ∧
    ((if true then QueryVariant.unsupported "no" else QueryVariant.q "sel")
        = QueryVariant.q "sel" →
      query_property true (QueryVariant.unsupported "no", QueryVariant.q "sel") ""
        = .ok ("sel" ++ "")) ∧
    query_property true move_from_temp_hf_insert_raw_queries ""
      = .error "States accumulate in history-preserving mode" ∧
    query_property false move_from_temp_hf_insert_raw_queries ""
      = .ok "INSERT INTO object_state ... ON CONFLICT (zoid) DO UPDATE ..." :=
  query_property_selects_or_raises true (QueryVariant.unsupported "no")
    (QueryVariant.q "sel") "" "sel" "no"

/-- A row of the `blob_chunk` table: the key `(zoid, tid)`, the chunk
number (always `0` since RelStorage 3 collapsed chunking), and the `chunk`
column holding a PostgreSQL large-object id. -/
structure BlobChunkRow where
  zoid : Nat
  tid : Nat
  chunk_num : Nat
  chunk : Nat
deriving DecidableEq, Repr

/-- PostgreSQL-side state for blob download: the `blob_chunk` table and the
backing large-object store mapping a large-object id to its byte
content. -/
structure PGBlobDb where
  blob_chunk : List BlobChunkRow
  lobject : Nat → List Nat

/-- Failure modes distinguishable around `download_blob`: a Python
`AssertionError`, the error surface's object-not-found class (never
produced by this code path), and a generic I/O failure. -/
inductive BlobError where
  | assertionFailed
  | objectNotFound
  | ioFailure
deriving DecidableEq, Repr

/-- Ordering of chunk rows by `chunk_num`, as demanded by
`ORDER BY chunk_num`. -/
def chunkNumLE (a b : BlobChunkRow) : Prop := a.chunk_num ≤ b.chunk_num

instance : DecidableRel chunkNumLE := fun a b => Nat.decLe a.chunk_num b.chunk_num

/-- `PostgreSQLObjectMover.download_blob`: select the chunk rows for
`(zoid, tid)` ordered by `chunk_num`, `assert len(rows) == 1`, export the
large object to the destination file, and return
`os.path.getsize(filename)`.  The result pairs the bytes written to the
destination file with the returned byte count. -/
def download_blob (db : PGBlobDb) (oid tid : Nat) :
    Except BlobError (List Nat × Nat) :=
  let rows := List.insertionSort chunkNumLE
    (db.blob_chunk.filter fun r => r.zoid = oid ∧ r.tid = tid)
  match rows with
  | [row] =>
    let content := db.lobject row.chunk
    .ok (content, content.length)
  | _ => .error .assertionFailed

/-- Counterexample to claim C9 as stated: with no chunk row for the key,
`download_blob` fails its `assert len(rows) == 1` with a Python
`AssertionError`, which is not the not-found error class of the error
surface. -/
theorem download_blob_missing_raises_assertion :
    download_blob ⟨[], fun _ => []⟩ 4 10 = .error .assertionFailed ∧
    download_blob ⟨[], fun _ => []⟩ 4 10 ≠ .error .objectNotFound :=
  ⟨rfl, fun h => nomatch (Except.error.inj h)⟩

/-- Claim C9 (amended): when exactly one chunk row exists for the key,
`download_blob` streams that chunk's stored content to the destination
file and returns the byte count written, equal to the stored chunk's size;
when no chunk row exists for the key the call fails with an
`AssertionError` — distinct from a generic I/O failure, though it is not
the dedicated not-found error class. -/
theorem download_blob_streams_single_chunk (db db2 : PGBlobDb)
    (oid tid : Nat) (row : BlobChunkRow)
    (h1 : db.blob_chunk.filter (fun r => r.zoid = oid ∧ r.tid = tid) = [row])
    (h2 : db2.blob_chunk.filter (fun r => r.zoid = oid ∧ r.tid = tid) = []) :
    download_blob db oid tid
      = .ok (db.lobject row.chunk, (db.lobject row.chunk).length) ∧
    download_blob db2 oid tid = .error .assertionFailed := by
  constructor
  · unfold download_blob
    rw [h1]
    exact rfl
  · unfold download_blob
    rw [h2]
    exact rfl

/-- Witness for the amended claim C9: a 3-byte blob stored for
`(oid 4, tid 10)` under large-object id 77, and an empty table. -/
theorem download_blob_streams_single_chunk_witness :
    download_blob ⟨[⟨4, 10, 0, 77⟩], fun _ => [1, 2, 3]⟩ 4 10
      = .ok ([1, 2, 3], 3) ∧
    download_blob ⟨[], fun _ => [1, 2, 3]⟩ 4 10 = .error .assertionFailed :=
  download_blob_streams_single_chunk ⟨[⟨4, 10, 0, 77⟩], fun _ => [1, 2, 3]⟩
    ⟨[], fun _ => [1, 2, 3]⟩ 4 10 ⟨4, 10, 0, 77⟩ rfl rfl
